import Mathlib

/-!
Verification model of the two-tier caching layer in
`src/routes/meta/tmdb.ts` of `xciphertv/api.consumet.org`.

The embedding models:
- JavaScript JSON values (`JVal`) restricted to the shapes the cache
  actually stores: null, booleans, integer numbers, strings without
  escape sequences, arrays and objects.  JavaScript floating-point
  numerics and string escape processing are outside the model; no claim
  depends on them.
- `JSON.stringify` / `JSON.parse` on those values (`jsonStringify`,
  `jsonParse`).  `jsonParse` is a fueled recursive-descent parser over
  the same restricted grammar; it rejects what it cannot represent.
- the `lru-cache` instance `memoryCache` (max 1000 entries, TTL
  `CACHE_TTL * 1000` ms), the optional ioredis handle, and the
  read-through orchestration `cacheWrapper` (tmdb.ts lines 56-91),
  including the `X-Cache` response header and JavaScript truthiness
  checks (`if (memoryCachedData)`, `if (cachedData)`).
-/

namespace ConsumetTmdb

/-- A JavaScript value as stored/serialized by the cache layer.
Numbers are restricted to integers (the routes only cache structured
provider data; no claim involves non-integer numerics). -/
inductive JVal where
  | jnull : JVal
  | jbool : Bool → JVal
  | jnum : Int → JVal
  | jstr : String → JVal
  | jarr : List JVal → JVal
  | jobj : List (String × JVal) → JVal

/-- JavaScript truthiness of a value: `null`, `false`, `0` and `""` are
falsy; every object/array is truthy. -/
def jsTruthy : JVal → Bool
  | .jnull => false
  | .jbool b => b
  | .jnum n => n != 0
  | .jstr s => s != ""
  | .jarr _ => true
  | .jobj _ => true

/-- Escape a character for a JSON string literal (the model only escapes
the quote and the backslash; other control characters are outside the
modelled value space). -/
def escapeJsonChar (c : Char) : String :=
  if c = '"' then "\\\"" else if c = '\\' then "\\\\" else String.mk [c]

/-- Escape a string for inclusion in a JSON string literal. -/
def escapeJsonString (s : String) : String :=
  String.join (s.toList.map escapeJsonChar)

mutual

/-- Model of `JSON.stringify` on the modelled value space.  Object keys
are serialized in the order of the field list, matching JavaScript's
insertion-order iteration of string-keyed properties (none of the
route parameter names are integer-like, so the integer-key reordering
rule of JavaScript objects never applies). -/
def jsonStringify : JVal → String
  | .jnull => "null"
  | .jbool true => "true"
  | .jbool false => "false"
  | .jnum n => toString n
  | .jstr s => "\"" ++ escapeJsonString s ++ "\""
  | .jarr xs => "[" ++ stringifyElems xs ++ "]"
  | .jobj fs => "\x7b" ++ stringifyFields fs ++ "\x7d"

/-- Comma-separated serialization of array elements. -/
def stringifyElems : List JVal → String
  | [] => ""
  | [x] => jsonStringify x
  | x :: xs => jsonStringify x ++ "," ++ stringifyElems xs

/-- Comma-separated serialization of object fields. -/
def stringifyFields : List (String × JVal) → String
  | [] => ""
  | [(k, v)] => "\"" ++ escapeJsonString k ++ "\":" ++ jsonStringify v
  | (k, v) :: fs =>
      "\"" ++ escapeJsonString k ++ "\":" ++ jsonStringify v ++ "," ++ stringifyFields fs

end

/-- Drop leading JSON whitespace. -/
def skipWs : List Char → List Char
  | [] => []
  | c :: cs => if c = ' ' || c = '\t' || c = '\n' || c = '\r' then skipWs cs else c :: cs

/-- Parse the body of a JSON string literal (after the opening quote) up
to the closing quote.  Escape sequences are outside the model: a
backslash makes the parse fail. -/
def parseStringBody : List Char → Option (String × List Char)
  | [] => none
  | c :: cs =>
      if c = '"' then some ("", cs)
      else if c = '\\' then none
      else (parseStringBody cs).map (fun p => (String.mk (c :: p.1.toList), p.2))

/-- Accumulate a run of decimal digits. -/
def parseNatAux : Nat → List Char → Nat × List Char
  | acc, [] => (acc, [])
  | acc, c :: cs =>
      if c.isDigit then parseNatAux (acc * 10 + (c.toNat - 48)) cs else (acc, c :: cs)

/-- Parse a JSON integer literal (optional minus sign, then digits). -/
def parseNumber : List Char → Option (JVal × List Char)
  | '-' :: c :: cs =>
      if c.isDigit then
        let p := parseNatAux 0 (c :: cs)
        some (.jnum (-(p.1 : Int)), p.2)
      else none
  | c :: cs =>
      if c.isDigit then
        let p := parseNatAux 0 (c :: cs)
        some (.jnum (p.1 : Int), p.2)
      else none
  | [] => none

mutual

/-- Fueled recursive-descent parser for a JSON value. -/
def parseJsonValue : Nat → List Char → Option (JVal × List Char)
  | 0, _ => none
  | fuel + 1, input =>
      match skipWs input with
      | 'n' :: 'u' :: 'l' :: 'l' :: rest => some (.jnull, rest)
      | 't' :: 'r' :: 'u' :: 'e' :: rest => some (.jbool true, rest)
      | 'f' :: 'a' :: 'l' :: 's' :: 'e' :: rest => some (.jbool false, rest)
      | '"' :: rest => (parseStringBody rest).map (fun p => (.jstr p.1, p.2))
      | '[' :: rest =>
          match skipWs rest with
          | ']' :: rest2 => some (.jarr [], rest2)
          | rest2 => (parseJsonElems fuel rest2).map (fun p => (.jarr p.1, p.2))
      | '\x7b' :: rest =>
          match skipWs rest with
          | '\x7d' :: rest2 => some (.jobj [], rest2)
          | rest2 => (parseJsonFields fuel rest2).map (fun p => (.jobj p.1, p.2))
      | other => parseNumber other

/-- Parse one-or-more comma-separated array elements up to `]`. -/
def parseJsonElems : Nat → List Char → Option (List JVal × List Char)
  | 0, _ => none
  | fuel + 1, input =>
      match parseJsonValue fuel input with
      | none => none
      | some (v, rest) =>
          match skipWs rest with
          | ',' :: rest2 => (parseJsonElems fuel rest2).map (fun p => (v :: p.1, p.2))
          | ']' :: rest2 => some ([v], rest2)
          | _ => none

/-- Parse one-or-more comma-separated object fields up to the closing
brace. -/
def parseJsonFields : Nat → List Char → Option (List (String × JVal) × List Char)
  | 0, _ => none
  | fuel + 1, input =>
      match skipWs input with
      | '"' :: rest =>
          match parseStringBody rest with
          | none => none
          | some (k, rest2) =>
              match skipWs rest2 with
              | ':' :: rest3 =>
                  match parseJsonValue fuel rest3 with
                  | none => none
                  | some (v, rest4) =>
                      match skipWs rest4 with
                      | ',' :: rest5 =>
                          (parseJsonFields fuel rest5).map (fun p => ((k, v) :: p.1, p.2))
                      | '\x7d' :: rest5 => some ([(k, v)], rest5)
                      | _ => none
              | _ => none
      | _ => none

end

/-- Model of `JSON.parse`: parse a complete JSON document; anything left
over (other than whitespace), or an unparsable input, is an error
(`JSON.parse` throws a `SyntaxError`). -/
def jsonParse (s : String) : Except Unit JVal :=
  match parseJsonValue (s.length + 1) s.toList with
  | some (v, rest) => if skipWs rest = [] then .ok v else .error ()
  | none => .error ()

/-- Cache TTL in seconds (tmdb.ts line 29: `const CACHE_TTL = 1800`). -/
def CACHE_TTL : Nat := 1800

/-- Modelled from the spec: the `lru-cache` package backing `memoryCache`
is an external dependency whose source is not part of this repository;
its behavior is modelled from spec section 4.2 (LocalTier): a bounded
store with `max` entries and a per-entry TTL, where `get` returns only
present, unexpired values and refreshes recency, expired entries are
lazily removed, and `set` inserts at most-recent position, evicting the
least-recently-used entries beyond capacity.  `entries` is kept in
most-recently-used-first order; each entry records its insertion time
(milliseconds).  Time is an explicit `Nat` parameter of each
operation. -/
structure LRUCache where
  max : Nat
  ttl : Nat
  entries : List (String × JVal × Nat)

/-- An entry inserted at time `stored` is fresh at time `now` while less
than `ttl` milliseconds have elapsed; after the TTL elapses it is
expired. -/
def lruFresh (now stored ttl : Nat) : Bool := now - stored < ttl

/-- `memoryCache.get`: the stored value if the key is present and
unexpired (refreshing its recency), together with the updated cache.
An expired entry is treated as absent and lazily removed. -/
def lruGet (now : Nat) (c : LRUCache) (k : String) : Option JVal × LRUCache :=
  match c.entries.find? (fun e => e.1 = k) with
  | none => (none, c)
  | some (_, v, t) =>
      if lruFresh now t c.ttl then
        (some v, { c with entries := (k, v, t) :: c.entries.filter (fun e => e.1 ≠ k) })
      else
        (none, { c with entries := c.entries.filter (fun e => e.1 ≠ k) })

/-- `memoryCache.set`: insert or replace at most-recent position with the
configured TTL, evicting least-recently-used entries beyond `max`. -/
def lruSet (now : Nat) (c : LRUCache) (k : String) (v : JVal) : LRUCache :=
  { c with entries := ((k, v, now) :: c.entries.filter (fun e => e.1 ≠ k)).take c.max }

/-- Side-effect-free view of the cache contents: the value `get` would
return at time `now`, without the recency/lazy-removal mutation. -/
def lruLookupPure (now : Nat) (c : LRUCache) (k : String) : Option JVal :=
  match c.entries.find? (fun e => e.1 = k) with
  | none => none
  | some (_, v, t) => if lruFresh now t c.ttl then some v else none

/-- The in-memory cache as constructed at tmdb.ts line 35:
`new LRUCache({ max: 1000, ttl: CACHE_TTL * 1000 })`. -/
def memoryCache : LRUCache := { max := 1000, ttl := CACHE_TTL * 1000, entries := [] }

/-- The local-tier check as `cacheWrapper` performs it: there is a
present, unexpired value for the key and it is truthy. -/
def truthyLocal (now : Nat) (st : LRUCache) (k : String) : Bool :=
  match lruLookupPure now st k with
  | some v => jsTruthy v
  | none => false

/-- Model of the ioredis handle.  `store` maps keys to the serialized
strings the route code wrote (plus their `EX` expiry in seconds, which
the store enforces on its own clock; no claim exercises shared-tier
expiry, so the model keeps entries until overwritten).  `getFails`
injects a network/protocol failure into `get` (the returned promise
rejects); `setFails` makes `set` fail (its promise rejects and the
write is lost). -/
structure Redis where
  store : List (String × String × Nat)
  getFails : Bool
  setFails : Bool
deriving DecidableEq

/-- The string the Redis store currently associates with a key. -/
def redisFind (r : Redis) (k : String) : Option String :=
  (r.store.find? (fun e => e.1 = k)).map (fun e => e.2.1)

/-- `redis.get(key)`: the stored string, `null` (here `none`) when the
key is absent, or a rejected promise when the connection fails. -/
def redisGet (r : Redis) (k : String) : Except Unit (Option String) :=
  if r.getFails then .error () else .ok (redisFind r k)

/-- `redis.set(key, value, 'EX', ttlSeconds)`: store the string with its
expiry; when the connection fails the write is lost (and, because the
route code does not await this promise, the rejection is unobserved). -/
def redisSet (r : Redis) (k v : String) (ttlSeconds : Nat) : Redis :=
  if r.setFails then r
  else { r with store := (k, v, ttlSeconds) :: r.store.filter (fun e => e.1 ≠ k) }

/-- The mutable state `cacheWrapper` reads and writes: the in-process
LRU cache and the optional Redis handle (`fastify.redis: Redis | null`). -/
structure CacheState where
  memoryCache : LRUCache
  redis : Option Redis

/-- The `X-Cache` response header values set by `cacheWrapper`. -/
inductive XCacheHeader where
  | hitMemory   -- 'HIT-MEMORY'
  | hitRedis    -- 'HIT-REDIS'
  | miss        -- 'MISS'
deriving DecidableEq

/-- Errors that can escape `cacheWrapper`: a rejected `redis.get`, a
`JSON.parse` SyntaxError on the stored bytes, or the loader's own
error (propagated verbatim, carrying the loader's message). -/
inductive FetchErr where
  | redisConn : FetchErr
  | parseFail : FetchErr
  | loader : String → FetchErr
deriving DecidableEq

/-- Trace of shared-tier (Redis) operations attempted during one
`cacheWrapper` call, for stating that the tier is or is not touched. -/
inductive SharedOp where
  | sGet : String → SharedOp
  | sSet : String → String → SharedOp
deriving DecidableEq

/-- Everything observable about one `cacheWrapper` call: the value or
error it produces, the last `X-Cache` header it set (if any), the
shared-tier operations it attempted, whether `fetchData` was invoked,
and the cache state it leaves behind. -/
structure ResolveOut where
  result : Except FetchErr JVal
  header : Option XCacheHeader
  sharedOps : List SharedOp
  loaderCalled : Bool
  state : CacheState

/-- The fall-through tail of `cacheWrapper` (tmdb.ts lines 80-90): set
the `MISS` header, await `fetchData()`, and on success store the result
in the memory cache and (fire-and-forget) in Redis.  A loader rejection
propagates and no cache write happens. -/
def cacheWrapperMiss (now : Nat) (st : CacheState) (cacheKey : String)
    (fetchData : Except String JVal) (ops : List SharedOp) : ResolveOut :=
  match fetchData with
  | .error e =>
      { result := .error (.loader e), header := some .miss, sharedOps := ops,
        loaderCalled := true, state := st }
  | .ok data =>
      let mc := lruSet now st.memoryCache cacheKey data
      match st.redis with
      | some r =>
          { result := .ok data, header := some .miss,
            sharedOps := ops ++ [.sSet cacheKey (jsonStringify data)],
            loaderCalled := true,
            state := { memoryCache := mc,
                       redis := some (redisSet r cacheKey (jsonStringify data) CACHE_TTL) } }
      | none =>
          { result := .ok data, header := some .miss, sharedOps := ops,
            loaderCalled := true, state := { memoryCache := mc, redis := none } }

/-- The Redis branch of `cacheWrapper` (tmdb.ts lines 69-78): when a
handle is configured, `await fastify.redis.get(cacheKey)` (a rejection
propagates — there is no try/catch), then, when the reply is a
non-empty string (`if (cachedData)`), `JSON.parse` it (a SyntaxError
propagates), promote the parsed value into the memory cache, set the
`HIT-REDIS` header and return it. -/
def cacheWrapperRedis (now : Nat) (st : CacheState) (cacheKey : String)
    (fetchData : Except String JVal) : ResolveOut :=
  match st.redis with
  | none => cacheWrapperMiss now st cacheKey fetchData []
  | some r =>
      match redisGet r cacheKey with
      | .error _ =>
          { result := .error .redisConn, header := none, sharedOps := [.sGet cacheKey],
            loaderCalled := false, state := st }
      | .ok none => cacheWrapperMiss now st cacheKey fetchData [.sGet cacheKey]
      | .ok (some cachedData) =>
          if cachedData ≠ "" then
            match jsonParse cachedData with
            | .error _ =>
                { result := .error .parseFail, header := none,
                  sharedOps := [.sGet cacheKey], loaderCalled := false, state := st }
            | .ok parsedData =>
                { result := .ok parsedData, header := some .hitRedis,
                  sharedOps := [.sGet cacheKey], loaderCalled := false,
                  state := { memoryCache := lruSet now st.memoryCache cacheKey parsedData,
                             redis := st.redis } }
          else cacheWrapperMiss now st cacheKey fetchData [.sGet cacheKey]

/-- `cacheWrapper` (tmdb.ts lines 56-91): check the memory cache first
(`if (memoryCachedData)` — a JavaScript truthiness test), then Redis,
then fall back to the loader.  `fetchData` is the outcome the loader
produces when invoked during this call. -/
def cacheWrapper (now : Nat) (st : CacheState) (cacheKey : String)
    (fetchData : Except String JVal) : ResolveOut :=
  let looked := lruGet now st.memoryCache cacheKey
  let st1 : CacheState := { memoryCache := looked.2, redis := st.redis }
  match looked.1 with
  | some v =>
      if jsTruthy v then
        { result := .ok v, header := some .hitMemory, sharedOps := [],
          loaderCalled := false, state := st1 }
      else cacheWrapperRedis now st1 cacheKey fetchData
  | none => cacheWrapperRedis now st1 cacheKey fetchData

/-- `getCacheKey` (tmdb.ts lines 52-54):
`` `tmdb:${route}:${JSON.stringify(params)}` ``.  The parameter bag is a
JavaScript object literal, modelled as its field list in insertion
order (all route parameter keys are non-integer-like strings, so
JavaScript iterates them in insertion order). -/
def getCacheKey (route : String) (params : List (String × JVal)) : String :=
  "tmdb:" ++ route ++ ":" ++ jsonStringify (.jobj params)

/-- Loader outcomes as `cacheWrapper` surfaces them: a fulfilled loader
value, or the loader's rejection wrapped as a `FetchErr.loader`. -/
def fetchResult (f : Except String JVal) : Except FetchErr JVal :=
  match f with
  | .ok v => .ok v
  | .error e => .error (.loader e)

/-- Whether a `cacheWrapper` call from state `st` falls through to the
loader: the memory cache yields no truthy value, and Redis is either
unconfigured, or reachable but holding nothing (or an empty string)
for the key. -/
def reachesLoader (now : Nat) (st : CacheState) (k : String) : Bool :=
  !truthyLocal now st.memoryCache k &&
  (match st.redis with
   | none => true
   | some r =>
       !r.getFails &&
       (match redisFind r k with
        | none => true
        | some s => s = ""))

/-- The shared-tier operation trace of a call that falls through to the
loader before the loader runs: one `get` when a handle is configured,
nothing otherwise. -/
def redisOps (o : Option Redis) (k : String) : List SharedOp :=
  match o with
  | none => []
  | some _ => [.sGet k]

/-! ## Helper lemmas about the local tier -/

theorem find?_const_false {α : Type} (l : List α) :
    l.find? (fun _ => false) = none := by
  induction l with
  | nil => rfl
  | cons e es ih => simp [ih]

theorem find?_erased_of_ne {α : Type} (l : List (String × α)) (k k2 : String)
    (h : ¬k2 = k) :
    l.find? (fun a => !decide (a.1 = k) && decide (a.1 = k2)) =
      l.find? (fun a => decide (a.1 = k2)) := by
  have hp : (fun (a : String × α) => !decide (a.1 = k) && decide (a.1 = k2)) =
      (fun a => decide (a.1 = k2)) := by
    funext a
    by_cases ha : a.1 = k2
    · have hak : ¬a.1 = k := fun hh => h (ha ▸ hh)
      simp [ha, hak, h]
    · simp [ha]
  rw [hp]

theorem lruGet_fst (now : Nat) (c : LRUCache) (k : String) :
    (lruGet now c k).1 = lruLookupPure now c k := by
  unfold lruGet lruLookupPure
  cases hfind : c.entries.find? (fun e => e.1 = k) with
  | none => rfl
  | some entry =>
      by_cases hfr : lruFresh now entry.2.2 c.ttl
      · simp [hfr]
      · simp [hfr]

theorem lruGet_snd_ttl (now : Nat) (c : LRUCache) (k : String) :
    ((lruGet now c k).2).ttl = c.ttl := by
  unfold lruGet
  cases hfind : c.entries.find? (fun e => e.1 = k) with
  | none => rfl
  | some entry =>
      by_cases hfr : lruFresh now entry.2.2 c.ttl
      · simp [hfr]
      · simp [hfr]

theorem lruGet_snd_max (now : Nat) (c : LRUCache) (k : String) :
    ((lruGet now c k).2).max = c.max := by
  unfold lruGet
  cases hfind : c.entries.find? (fun e => e.1 = k) with
  | none => rfl
  | some entry =>
      by_cases hfr : lruFresh now entry.2.2 c.ttl
      · simp [hfr]
      · simp [hfr]

/-- `memoryCache.get` does not change the cached mapping: the value any
key would yield at the same instant is unchanged by the recency refresh
and the lazy removal of expired entries. -/
theorem lruLookupPure_lruGet (now : Nat) (c : LRUCache) (k k2 : String) :
    lruLookupPure now (lruGet now c k).2 k2 = lruLookupPure now c k2 := by
  unfold lruGet
  cases hfind : c.entries.find? (fun e => e.1 = k) with
  | none => rfl
  | some entry =>
      obtain ⟨k1, v, t⟩ := entry
      have hk1 : k1 = k := by
        have := List.find?_some hfind
        simpa using this
      subst hk1
      by_cases hfr : lruFresh now t c.ttl
      · simp only [hfr, if_true]
        by_cases hk2 : k2 = k1
        · subst hk2
          unfold lruLookupPure
          simp [List.find?_cons, hfind, hfr]
        · have hne : ¬(k1 = k2) := fun hh => hk2 hh.symm
          unfold lruLookupPure
          simp [List.find?_cons, hne, find?_erased_of_ne c.entries k1 k2 hk2]
      · simp only [hfr, if_false]
        by_cases hk2 : k2 = k1
        · subst hk2
          unfold lruLookupPure
          simp [find?_const_false, hfind, hfr]
        · unfold lruLookupPure
          simp [find?_erased_of_ne c.entries k1 k2 hk2]

theorem truthyLocal_lruGet (now : Nat) (c : LRUCache) (k k2 : String) :
    truthyLocal now (lruGet now c k).2 k2 = truthyLocal now c k2 := by
  unfold truthyLocal
  rw [lruLookupPure_lruGet]

/-- A key just written is readable back (at the same instant) whenever
the cache has positive capacity and a positive TTL. -/
theorem lruLookupPure_lruSet_self (now : Nat) (c : LRUCache) (k : String) (v : JVal)
    (hmax : 0 < c.max) (httl : 0 < c.ttl) :
    lruLookupPure now (lruSet now c k v) k = some v := by
  unfold lruSet lruLookupPure
  cases hm : c.max with
  | zero => omega
  | succ m =>
      simp only [List.take_succ_cons, List.find?_cons]
      have : lruFresh now now c.ttl = true := by
        unfold lruFresh
        simp [httl]
      simp [this]

theorem lruSet_ttl (now : Nat) (c : LRUCache) (k : String) (v : JVal) :
    (lruSet now c k v).ttl = c.ttl := rfl

theorem lruSet_max (now : Nat) (c : LRUCache) (k : String) (v : JVal) :
    (lruSet now c k v).max = c.max := rfl

/-! ## Path lemmas about `cacheWrapper` -/

theorem cacheWrapper_memory_hit (now : Nat) (st : CacheState) (key : String)
    (fetch : Except String JVal) (v : JVal)
    (h : lruLookupPure now st.memoryCache key = some v) (ht : jsTruthy v = true) :
    cacheWrapper now st key fetch =
      { result := .ok v, header := some .hitMemory, sharedOps := [],
        loaderCalled := false,
        state := { memoryCache := (lruGet now st.memoryCache key).2,
                   redis := st.redis } } := by
  have hfst : (lruGet now st.memoryCache key).1 = some v := by
    rw [lruGet_fst]; exact h
  simp only [cacheWrapper]
  rw [hfst]
  simp [ht]

/-- `cacheWrapperMiss` always marks the loader as invoked. -/
theorem cacheWrapperMiss_loaderCalled (now : Nat) (st : CacheState) (key : String)
    (fetch : Except String JVal) (ops : List SharedOp) :
    (cacheWrapperMiss now st key fetch ops).loaderCalled = true := by
  unfold cacheWrapperMiss
  cases fetch with
  | error e => rfl
  | ok data => cases st.redis <;> rfl

/-- `cacheWrapperMiss` surfaces exactly the loader's outcome. -/
theorem cacheWrapperMiss_result (now : Nat) (st : CacheState) (key : String)
    (fetch : Except String JVal) (ops : List SharedOp) :
    (cacheWrapperMiss now st key fetch ops).result = fetchResult fetch := by
  unfold cacheWrapperMiss fetchResult
  cases fetch with
  | error e => rfl
  | ok data => cases st.redis <;> rfl

theorem cacheWrapperMiss_header (now : Nat) (st : CacheState) (key : String)
    (fetch : Except String JVal) (ops : List SharedOp) :
    (cacheWrapperMiss now st key fetch ops).header = some .miss := by
  unfold cacheWrapperMiss
  cases fetch with
  | error e => rfl
  | ok data => cases st.redis <;> rfl

/-- When a call falls through both tier checks it runs the loader tail
from the post-`get` memory state, with one shared `get` attempted iff a
Redis handle is configured. -/
theorem cacheWrapper_of_reachesLoader (now : Nat) (st : CacheState) (key : String)
    (fetch : Except String JVal) (h : reachesLoader now st key = true) :
    cacheWrapper now st key fetch =
      cacheWrapperMiss now
        { memoryCache := (lruGet now st.memoryCache key).2, redis := st.redis }
        key fetch (redisOps st.redis key) := by
  unfold reachesLoader at h
  rw [Bool.and_eq_true] at h
  obtain ⟨h1, h2⟩ := h
  simp only [cacheWrapper]
  have hfst : (lruGet now st.memoryCache key).1 = lruLookupPure now st.memoryCache key :=
    lruGet_fst now st.memoryCache key
  rw [hfst]
  unfold truthyLocal at h1
  cases hl : lruLookupPure now st.memoryCache key with
  | some v =>
      rw [hl] at h1
      simp only [Bool.not_eq_true'] at h1
      simp only [h1, Bool.false_eq_true, if_false]
      cases hr : st.redis with
      | none => rfl
      | some r =>
          rw [hr] at h2
          unfold cacheWrapperRedis redisGet
          rw [Bool.and_eq_true] at h2
          obtain ⟨hg, hs⟩ := h2
          simp only [Bool.not_eq_true'] at hg
          simp only [hg, Bool.false_eq_true, if_false]
          cases hf : redisFind r key with
          | none => simp [redisOps]
          | some s =>
              rw [hf] at hs
              have hse : s = "" := by simpa using hs
              subst hse
              simp [redisOps]
  | none =>
      cases hr : st.redis with
      | none => rfl
      | some r =>
          rw [hr] at h2
          unfold cacheWrapperRedis redisGet
          rw [Bool.and_eq_true] at h2
          obtain ⟨hg, hs⟩ := h2
          simp only [Bool.not_eq_true'] at hg
          simp only [hg, Bool.false_eq_true, if_false]
          cases hf : redisFind r key with
          | none => simp [redisOps]
          | some s =>
              rw [hf] at hs
              have hse : s = "" := by simpa using hs
              subst hse
              simp [redisOps]

/-- The loader runs exactly when both tier checks fall through. -/
theorem cacheWrapper_loaderCalled (now : Nat) (st : CacheState) (key : String)
    (fetch : Except String JVal) :
    (cacheWrapper now st key fetch).loaderCalled = reachesLoader now st key := by
  by_cases h : reachesLoader now st key = true
  · rw [cacheWrapper_of_reachesLoader now st key fetch h, h,
      cacheWrapperMiss_loaderCalled]
  · rw [Bool.not_eq_true] at h
    rw [h]
    unfold reachesLoader at h
    rw [Bool.and_eq_false_iff] at h
    simp only [cacheWrapper]
    have hfst : (lruGet now st.memoryCache key).1 = lruLookupPure now st.memoryCache key :=
      lruGet_fst now st.memoryCache key
    rw [hfst]
    cases h with
    | inl h1 =>
        unfold truthyLocal at h1
        simp only [Bool.not_eq_false'] at h1
        cases hl : lruLookupPure now st.memoryCache key with
        | none => rw [hl] at h1; exact absurd h1 (by simp)
        | some v => rw [hl] at h1; simp at h1; simp [h1]
    | inr h2 =>
        cases hl : lruLookupPure now st.memoryCache key with
        | some v =>
            by_cases ht : jsTruthy v
            · simp [ht]
            · rw [Bool.not_eq_true] at ht
              simp only [ht, Bool.false_eq_true, if_false]
              cases hr : st.redis with
              | none => rw [hr] at h2; exact absurd h2 (by simp)
              | some r =>
                  rw [hr] at h2
                  rw [Bool.and_eq_false_iff] at h2
                  unfold cacheWrapperRedis redisGet
                  cases h2 with
                  | inl hg =>
                      simp only [Bool.not_eq_false'] at hg
                      simp [hg]
                  | inr hsx =>
                      cases hf : redisFind r key with
                      | none => rw [hf] at hsx; exact absurd hsx (by simp)
                      | some s =>
                          rw [hf] at hsx
                          have hsne : s ≠ "" := by
                            intro hh; rw [hh] at hsx; simp at hsx
                          by_cases hg : r.getFails
                          · simp [hg]
                          · rw [Bool.not_eq_true] at hg
                            simp only [hg, Bool.false_eq_true, if_false]
                            rw [hf]
                            cases hp : jsonParse s with
                            | error e => simp [hsne, hp]
                            | ok parsed => simp [hsne, hp]
        | none =>
            cases hr : st.redis with
            | none => rw [hr] at h2; exact absurd h2 (by simp)
            | some r =>
                rw [hr] at h2
                rw [Bool.and_eq_false_iff] at h2
                unfold cacheWrapperRedis redisGet
                cases h2 with
                | inl hg =>
                    simp only [Bool.not_eq_false'] at hg
                    simp [hg]
                | inr hsx =>
                    cases hf : redisFind r key with
                    | none => rw [hf] at hsx; exact absurd hsx (by simp)
                    | some s =>
                        rw [hf] at hsx
                        have hsne : s ≠ "" := by
                          intro hh; rw [hh] at hsx; simp at hsx
                        by_cases hg : r.getFails
                        · simp [hg]
                        · rw [Bool.not_eq_true] at hg
                          simp only [hg, Bool.false_eq_true, if_false]
                          rw [hf]
                          cases hp : jsonParse s with
                          | error e => simp [hsne, hp]
                          | ok parsed => simp [hsne, hp]

/-- A failed loader leaves the state exactly as it found it. -/
theorem cacheWrapperMiss_error_state (now : Nat) (st : CacheState) (key : String)
    (e : String) (ops : List SharedOp) :
    (cacheWrapperMiss now st key (.error e) ops).state = st := rfl

/-- A successful loader populates the memory cache. -/
theorem cacheWrapperMiss_ok_memory (now : Nat) (st : CacheState) (key : String)
    (v : JVal) (ops : List SharedOp) :
    (cacheWrapperMiss now st key (.ok v) ops).state.memoryCache =
      lruSet now st.memoryCache key v := by
  unfold cacheWrapperMiss
  cases st.redis <;> rfl

/-- A successful loader issues the fire-and-forget Redis write when a
handle is configured. -/
theorem cacheWrapperMiss_ok_redis (now : Nat) (st : CacheState) (key : String)
    (v : JVal) (ops : List SharedOp) (r : Redis) (hr : st.redis = some r) :
    (cacheWrapperMiss now st key (.ok v) ops).state.redis =
      some (redisSet r key (jsonStringify v) CACHE_TTL) := by
  unfold cacheWrapperMiss
  rw [hr]

/-- A reachable Redis holding a non-empty, parseable string for the key
serves a `HIT-REDIS` response and promotes the value into the memory
cache. -/
theorem cacheWrapper_redis_hit (now : Nat) (st : CacheState) (key : String)
    (fetch : Except String JVal) (r : Redis) (s : String) (v : JVal)
    (hloc : truthyLocal now st.memoryCache key = false)
    (hr : st.redis = some r) (hg : r.getFails = false)
    (hf : redisFind r key = some s) (hs : s ≠ "") (hp : jsonParse s = .ok v) :
    cacheWrapper now st key fetch =
      { result := .ok v, header := some .hitRedis, sharedOps := [.sGet key],
        loaderCalled := false,
        state := { memoryCache := lruSet now (lruGet now st.memoryCache key).2 key v,
                   redis := st.redis } } := by
  simp only [cacheWrapper]
  rw [lruGet_fst]
  unfold truthyLocal at hloc
  cases hl : lruLookupPure now st.memoryCache key with
  | none => simp [cacheWrapperRedis, hr, redisGet, hg, hf, hs, hp]
  | some v0 =>
      rw [hl] at hloc
      simp only at hloc
      simp [hloc, cacheWrapperRedis, hr, redisGet, hg, hf, hs, hp]

/-! ## Claim theorems -/

/-- C2 counterexample: two parameter bags holding the same key/value
pairs in different insertion orders produce different cache keys, so
`getCacheKey` is not order-independent. -/
theorem c2_counterexample :
    getCacheKey "search" [("query", .jstr "x"), ("page", .jnum 1)] ≠
      getCacheKey "search" [("page", .jnum 1), ("query", .jstr "x")] ∧
    List.Perm [(("query" : String), JVal.jstr "x"), ("page", JVal.jnum 1)]
      [("page", JVal.jnum 1), ("query", JVal.jstr "x")] :=
  ⟨by decide, List.Perm.swap _ _ _⟩

/-- C2 (amended): `getCacheKey` is a pure, deterministic function of the
route name and the parameter bag taken in its insertion order:
identically ordered bags always yield the identical key string.  Bags
that hold the same key/value pairs in different insertion orders may
yield different keys, because the key embeds `JSON.stringify` of the
bag, which serializes fields in insertion order. -/
theorem c2_amended (route : String) (p1 p2 : List (String × JVal)) (h : p1 = p2) :
    getCacheKey route p1 = getCacheKey route p2 := by
  rw [h]

/-- Witness for C2 (amended) at a concrete route and bag. -/
theorem c2_witness :
    getCacheKey "search" [("query", JVal.jstr "x"), ("page", JVal.jnum 1)] =
      getCacheKey "search" [("query", JVal.jstr "x"), ("page", JVal.jnum 1)] :=
  c2_amended "search" [("query", JVal.jstr "x"), ("page", JVal.jnum 1)]
    [("query", JVal.jstr "x"), ("page", JVal.jnum 1)] rfl

/-- A reachable Redis holding, for the key, a non-empty string that
fails to deserialize makes `cacheWrapper` surface the `JSON.parse`
error: the loader is not invoked and no header is set. -/
theorem cacheWrapper_parse_failure (now : Nat) (st : CacheState) (key : String)
    (fetch : Except String JVal) (r : Redis) (s : String)
    (hloc : truthyLocal now st.memoryCache key = false)
    (hr : st.redis = some r) (hg : r.getFails = false)
    (hf : redisFind r key = some s) (hs : s ≠ "") (hp : jsonParse s = .error ()) :
    cacheWrapper now st key fetch =
      { result := .error .parseFail, header := none, sharedOps := [.sGet key],
        loaderCalled := false,
        state := { memoryCache := (lruGet now st.memoryCache key).2,
                   redis := st.redis } } := by
  simp only [cacheWrapper]
  rw [lruGet_fst]
  unfold truthyLocal at hloc
  cases hl : lruLookupPure now st.memoryCache key with
  | none => simp [cacheWrapperRedis, hr, redisGet, hg, hf, hs, hp]
  | some v0 =>
      rw [hl] at hloc
      simp only at hloc
      simp [hloc, cacheWrapperRedis, hr, redisGet, hg, hf, hs, hp]

/-- C1 counterexample, covering both claimed failure modes.  With an
empty memory cache: (a) a Redis handle whose `get` rejects makes
`cacheWrapper` surface the Redis error instead of falling back to the
loader — the loader is never invoked and no `X-Cache` header is set
(there is no try/catch around `fastify.redis.get`); (b) a reachable
Redis holding the undeserializable string `"not-json"` for the key
makes `cacheWrapper` surface the `JSON.parse` error, again without
invoking the loader.  In both cases the call fails rather than
returning the loader's value with label `MISS`. -/
theorem c1_counterexample :
    (cacheWrapper 0
        { memoryCache := memoryCache,
          redis := some { store := [], getFails := true, setFails := false } }
        "k" (.ok (.jnum 42))).result = .error .redisConn ∧
    (cacheWrapper 0
        { memoryCache := memoryCache,
          redis := some { store := [], getFails := true, setFails := false } }
        "k" (.ok (.jnum 42))).loaderCalled = false ∧
    (cacheWrapper 0
        { memoryCache := memoryCache,
          redis := some { store := [], getFails := true, setFails := false } }
        "k" (.ok (.jnum 42))).header = none ∧
    (cacheWrapper 0
        { memoryCache := memoryCache,
          redis := some { store := [("k", "not-json", 1800)], getFails := false, setFails := false } }
        "k" (.ok (.jnum 42))).result = .error .parseFail ∧
    (cacheWrapper 0
        { memoryCache := memoryCache,
          redis := some { store := [("k", "not-json", 1800)], getFails := false, setFails := false } }
        "k" (.ok (.jnum 42))).loaderCalled = false ∧
    (cacheWrapper 0
        { memoryCache := memoryCache,
          redis := some { store := [("k", "not-json", 1800)], getFails := false, setFails := false } }
        "k" (.ok (.jnum 42))).header = none :=
  ⟨rfl, rfl, rfl, rfl, rfl, rfl⟩

/-- C1 (amended): when the memory cache yields no truthy value for the
key and the configured shared tier fails — either (1) the Redis `get`
itself rejects, or (2) the stored bytes are a non-empty string that
fails to deserialize — `cacheWrapper` propagates the failure to its
caller: the result is the Redis connection error (respectively the
`JSON.parse` error), the loader is never invoked, no `X-Cache` header
is set, only the one shared `get` was attempted, the cached local
mapping is unchanged (the local tier is not populated), and the Redis
handle is untouched.  (The route layer's `fetchAndCache` catches the
error and answers 500, so the shared-tier failure alone does surface to
the caller.) -/
theorem c1_amended (now : Nat) (st : CacheState) (key : String)
    (fetch : Except String JVal) (r : Redis) :
    (truthyLocal now st.memoryCache key = false → st.redis = some r →
      r.getFails = true →
      (cacheWrapper now st key fetch).result = .error .redisConn ∧
      (cacheWrapper now st key fetch).loaderCalled = false ∧
      (cacheWrapper now st key fetch).header = none ∧
      (cacheWrapper now st key fetch).sharedOps = [.sGet key] ∧
      (∀ k2, lruLookupPure now (cacheWrapper now st key fetch).state.memoryCache k2 =
        lruLookupPure now st.memoryCache k2) ∧
      (cacheWrapper now st key fetch).state.redis = st.redis) ∧
    (∀ s, truthyLocal now st.memoryCache key = false → st.redis = some r →
      r.getFails = false → redisFind r key = some s → s ≠ "" →
      jsonParse s = .error () →
      (cacheWrapper now st key fetch).result = .error .parseFail ∧
      (cacheWrapper now st key fetch).loaderCalled = false ∧
      (cacheWrapper now st key fetch).header = none ∧
      (cacheWrapper now st key fetch).sharedOps = [.sGet key] ∧
      (∀ k2, lruLookupPure now (cacheWrapper now st key fetch).state.memoryCache k2 =
        lruLookupPure now st.memoryCache k2) ∧
      (cacheWrapper now st key fetch).state.redis = st.redis) := by
  constructor
  · intro hloc hr hfail
    have hcw : cacheWrapper now st key fetch =
        { result := .error .redisConn, header := none, sharedOps := [.sGet key],
          loaderCalled := false,
          state := { memoryCache := (lruGet now st.memoryCache key).2,
                     redis := st.redis } } := by
      simp only [cacheWrapper]
      rw [lruGet_fst]
      unfold truthyLocal at hloc
      cases hl : lruLookupPure now st.memoryCache key with
      | none => simp [cacheWrapperRedis, hr, redisGet, hfail]
      | some v =>
          rw [hl] at hloc
          simp only at hloc
          simp [hloc, cacheWrapperRedis, hr, redisGet, hfail]
    refine ⟨by rw [hcw], by rw [hcw], by rw [hcw], by rw [hcw], ?_, by rw [hcw]⟩
    intro k2
    rw [hcw]
    exact lruLookupPure_lruGet now st.memoryCache key k2
  · intro s hloc hr hg hf hs hp
    have hcw := cacheWrapper_parse_failure now st key fetch r s hloc hr hg hf hs hp
    refine ⟨by rw [hcw], by rw [hcw], by rw [hcw], by rw [hcw], ?_, by rw [hcw]⟩
    intro k2
    rw [hcw]
    exact lruLookupPure_lruGet now st.memoryCache key k2

/-- Witness for C1 (amended): both failure modes at concrete states — a
rejecting `get`, and a stored string that fails to deserialize. -/
theorem c1_witness :
    (cacheWrapper 5
        { memoryCache := memoryCache,
          redis := some { store := [("x", "1", 1800)], getFails := true, setFails := false } }
        "x" (.ok (.jstr "fresh"))).result = .error .redisConn ∧
    (cacheWrapper 5
        { memoryCache := memoryCache,
          redis := some { store := [("x", "1", 1800)], getFails := true, setFails := false } }
        "x" (.ok (.jstr "fresh"))).loaderCalled = false ∧
    (cacheWrapper 0
        { memoryCache := memoryCache,
          redis := some { store := [("y", "not-json", 1800)], getFails := false, setFails := false } }
        "y" (.ok (.jstr "fresh"))).result = .error .parseFail ∧
    (cacheWrapper 0
        { memoryCache := memoryCache,
          redis := some { store := [("y", "not-json", 1800)], getFails := false, setFails := false } }
        "y" (.ok (.jstr "fresh"))).loaderCalled = false :=
  ⟨((c1_amended 5
      { memoryCache := memoryCache,
        redis := some { store := [("x", "1", 1800)], getFails := true, setFails := false } }
      "x" (.ok (.jstr "fresh"))
      { store := [("x", "1", 1800)], getFails := true, setFails := false }).1
      rfl rfl rfl).1,
   ((c1_amended 5
      { memoryCache := memoryCache,
        redis := some { store := [("x", "1", 1800)], getFails := true, setFails := false } }
      "x" (.ok (.jstr "fresh"))
      { store := [("x", "1", 1800)], getFails := true, setFails := false }).1
      rfl rfl rfl).2.1,
   ((c1_amended 0
      { memoryCache := memoryCache,
        redis := some { store := [("y", "not-json", 1800)], getFails := false, setFails := false } }
      "y" (.ok (.jstr "fresh"))
      { store := [("y", "not-json", 1800)], getFails := false, setFails := false }).2
      "not-json" rfl rfl rfl rfl (by decide) rfl).1,
   ((c1_amended 0
      { memoryCache := memoryCache,
        redis := some { store := [("y", "not-json", 1800)], getFails := false, setFails := false } }
      "y" (.ok (.jstr "fresh"))
      { store := [("y", "not-json", 1800)], getFails := false, setFails := false }).2
      "not-json" rfl rfl rfl rfl (by decide) rfl).2.1⟩

/-- C3 counterexample: a key the local tier holds (present and
unexpired) with a falsy value is not served with label `MEMORY`; the
call falls through to the loader and is labeled `MISS`.  So the claimed
protocol (`holds the key` implies `MEMORY`, loader never invoked) fails
on the code. -/
theorem c3_counterexample :
    lruLookupPure 0
      { max := 1000, ttl := CACHE_TTL * 1000, entries := [("k", JVal.jbool false, 0)] }
      "k" = some (JVal.jbool false) ∧
    (cacheWrapper 0
        { memoryCache :=
            { max := 1000, ttl := CACHE_TTL * 1000, entries := [("k", JVal.jbool false, 0)] },
          redis := none } "k" (.ok (.jnum 7))).header = some .miss ∧
    (cacheWrapper 0
        { memoryCache :=
            { max := 1000, ttl := CACHE_TTL * 1000, entries := [("k", JVal.jbool false, 0)] },
          redis := none } "k" (.ok (.jnum 7))).loaderCalled = true ∧
    (cacheWrapper 0
        { memoryCache :=
            { max := 1000, ttl := CACHE_TTL * 1000, entries := [("k", JVal.jbool false, 0)] },
          redis := none } "k" (.ok (.jnum 7))).result = .ok (.jnum 7) :=
  ⟨rfl, rfl, rfl, rfl⟩

/-- C3 (amended): the read-through sequence, with the hit conditions as
the code actually tests them (JavaScript truthiness, not mere
presence): (1) if the local tier holds a truthy value it is returned
labeled `MEMORY`, the loader is not invoked and the shared tier is not
queried; (2) otherwise, if a Redis handle is configured, reachable, and
holds a non-empty string that deserializes, the parsed value is written
into the local tier (promotion) and returned labeled `SHARED` without
invoking the loader; (3) otherwise (no truthy local value and Redis
unconfigured, or reachable-but-empty for the key) the loader is
invoked, its value populates the local tier and — when configured — the
shared tier, and is returned labeled `MISS`. -/
theorem c3_amended (now : Nat) (st : CacheState) (key : String)
    (fetch : Except String JVal) :
    (∀ v, lruLookupPure now st.memoryCache key = some v → jsTruthy v = true →
      (cacheWrapper now st key fetch).result = .ok v ∧
      (cacheWrapper now st key fetch).header = some .hitMemory ∧
      (cacheWrapper now st key fetch).loaderCalled = false ∧
      (cacheWrapper now st key fetch).sharedOps = []) ∧
    (∀ r s v, truthyLocal now st.memoryCache key = false → st.redis = some r →
      r.getFails = false → redisFind r key = some s → s ≠ "" →
      jsonParse s = .ok v →
      (cacheWrapper now st key fetch).result = .ok v ∧
      (cacheWrapper now st key fetch).header = some .hitRedis ∧
      (cacheWrapper now st key fetch).loaderCalled = false ∧
      (cacheWrapper now st key fetch).state.memoryCache =
        lruSet now (lruGet now st.memoryCache key).2 key v) ∧
    (∀ v, reachesLoader now st key = true → fetch = .ok v →
      (cacheWrapper now st key fetch).result = .ok v ∧
      (cacheWrapper now st key fetch).header = some .miss ∧
      (cacheWrapper now st key fetch).loaderCalled = true ∧
      (cacheWrapper now st key fetch).state.memoryCache =
        lruSet now (lruGet now st.memoryCache key).2 key v ∧
      (∀ r, st.redis = some r →
        (cacheWrapper now st key fetch).state.redis =
          some (redisSet r key (jsonStringify v) CACHE_TTL))) := by
  refine ⟨?_, ?_, ?_⟩
  · intro v hl ht
    have h := cacheWrapper_memory_hit now st key fetch v hl ht
    exact ⟨by rw [h], by rw [h], by rw [h], by rw [h]⟩
  · intro r s v hloc hr hg hf hs hp
    have h := cacheWrapper_redis_hit now st key fetch r s v hloc hr hg hf hs hp
    exact ⟨by rw [h], by rw [h], by rw [h], by rw [h]⟩
  · intro v hreach hfetch
    subst hfetch
    have h := cacheWrapper_of_reachesLoader now st key (.ok v) hreach
    refine ⟨?_, ?_, ?_, ?_, ?_⟩
    · rw [h, cacheWrapperMiss_result]; rfl
    · rw [h, cacheWrapperMiss_header]
    · rw [h, cacheWrapperMiss_loaderCalled]
    · rw [h, cacheWrapperMiss_ok_memory]
    · intro r hr
      rw [h]
      exact cacheWrapperMiss_ok_redis now _ key v _ r hr

/-- Witness for C3 (amended): each branch of the protocol at a concrete
state. -/
theorem c3_witness :
    (cacheWrapper 0
        { memoryCache :=
            { max := 1000, ttl := CACHE_TTL * 1000, entries := [("a", JVal.jnum 5, 0)] },
          redis := none } "a" (.error "unused")).result = .ok (.jnum 5) ∧
    (cacheWrapper 0
        { memoryCache := memoryCache,
          redis := some { store := [("b", "3", 1800)], getFails := false, setFails := false } }
        "b" (.error "unused")).header = some .hitRedis ∧
    (cacheWrapper 0 { memoryCache := memoryCache, redis := none }
        "c" (.ok (.jstr "v"))).header = some .miss :=
  ⟨((c3_amended 0
      { memoryCache :=
          { max := 1000, ttl := CACHE_TTL * 1000, entries := [("a", JVal.jnum 5, 0)] },
        redis := none } "a" (.error "unused")).1 (JVal.jnum 5) rfl rfl).1,
   ((c3_amended 0
      { memoryCache := memoryCache,
        redis := some { store := [("b", "3", 1800)], getFails := false, setFails := false } }
      "b" (.error "unused")).2.1
      { store := [("b", "3", 1800)], getFails := false, setFails := false }
      "3" (JVal.jnum 3) rfl rfl rfl rfl (by decide) rfl).2.1,
   ((c3_amended 0 { memoryCache := memoryCache, redis := none }
      "c" (.ok (.jstr "v"))).2.2 (JVal.jstr "v") rfl rfl).2.1⟩

/-- C4 counterexample: with the shared tier unconfigured and a loader
returning the falsy `0` on its first invocation and `1` on its second,
the second `resolve` call invokes the loader again and returns the
second value — the first value is not served from a tier. -/
theorem c4_counterexample :
    (cacheWrapper 0 { memoryCache := memoryCache, redis := none } "k"
        (.ok (.jnum 0))).loaderCalled = true ∧
    (cacheWrapper 0
        (cacheWrapper 0 { memoryCache := memoryCache, redis := none } "k"
          (.ok (.jnum 0))).state "k" (.ok (.jnum 1))).loaderCalled = true ∧
    (cacheWrapper 0
        (cacheWrapper 0 { memoryCache := memoryCache, redis := none } "k"
          (.ok (.jnum 0))).state "k" (.ok (.jnum 1))).result = .ok (.jnum 1) :=
  ⟨rfl, rfl, rfl⟩

/-- C4 (amended): read-through correctness holds provided the first
loader invocation's value is truthy: if the first call reaches the
loader and the loader returns a truthy value `v`, an immediately
subsequent call (same key, same instant, positive capacity and TTL)
returns `v` from the memory tier with label `MEMORY` and does not
invoke its (possibly different) loader — the loader ran exactly once
across the two calls. -/
theorem c4_amended (now : Nat) (st : CacheState) (key : String)
    (f1 f2 : Except String JVal) (v : JVal)
    (hmax : 0 < st.memoryCache.max) (httl : 0 < st.memoryCache.ttl)
    (hcall : (cacheWrapper now st key f1).loaderCalled = true)
    (hf1 : f1 = .ok v) (htr : jsTruthy v = true) :
    (cacheWrapper now (cacheWrapper now st key f1).state key f2).result = .ok v ∧
    (cacheWrapper now (cacheWrapper now st key f1).state key f2).header =
      some .hitMemory ∧
    (cacheWrapper now (cacheWrapper now st key f1).state key f2).loaderCalled =
      false := by
  subst hf1
  rw [cacheWrapper_loaderCalled] at hcall
  have h1 := cacheWrapper_of_reachesLoader now st key (.ok v) hcall
  have hmem : (cacheWrapper now st key (.ok v)).state.memoryCache =
      lruSet now (lruGet now st.memoryCache key).2 key v := by
    rw [h1, cacheWrapperMiss_ok_memory]
  have hlook : lruLookupPure now (cacheWrapper now st key (.ok v)).state.memoryCache
      key = some v := by
    rw [hmem]
    apply lruLookupPure_lruSet_self
    · rw [lruGet_snd_max]; exact hmax
    · rw [lruGet_snd_ttl]; exact httl
  have h2 := cacheWrapper_memory_hit now (cacheWrapper now st key (.ok v)).state key
    f2 v hlook htr
  exact ⟨by rw [h2], by rw [h2], by rw [h2]⟩

/-- Witness for C4 (amended) at a concrete state. -/
theorem c4_witness :
    (cacheWrapper 0
        (cacheWrapper 0 { memoryCache := memoryCache, redis := none } "k"
          (.ok (.jnum 2))).state "k" (.ok (.jnum 9))).result = .ok (.jnum 2) ∧
    (cacheWrapper 0
        (cacheWrapper 0 { memoryCache := memoryCache, redis := none } "k"
          (.ok (.jnum 2))).state "k" (.ok (.jnum 9))).loaderCalled = false :=
  ⟨(c4_amended 0 { memoryCache := memoryCache, redis := none } "k"
      (.ok (.jnum 2)) (.ok (.jnum 9)) (.jnum 2)
      (by decide) (by decide) rfl rfl rfl).1,
   (c4_amended 0 { memoryCache := memoryCache, redis := none } "k"
      (.ok (.jnum 2)) (.ok (.jnum 9)) (.jnum 2)
      (by decide) (by decide) rfl rfl rfl).2.2⟩

/-- C5: a loader failure is propagated verbatim (wrapped only by the
model's error constructor, carrying the loader's own error), creates no
cache entry in either tier — the cached mapping of every key is
unchanged and the Redis handle is untouched — and an immediately
subsequent call with the same key reaches the loader again: failures
are never negatively cached. -/
theorem c5_loader_failure (now : Nat) (st : CacheState) (key : String)
    (e : String) (f2 : Except String JVal)
    (hcall : (cacheWrapper now st key (.error e)).loaderCalled = true) :
    (cacheWrapper now st key (.error e)).result = .error (.loader e) ∧
    (∀ k2, lruLookupPure now (cacheWrapper now st key (.error e)).state.memoryCache
      k2 = lruLookupPure now st.memoryCache k2) ∧
    (cacheWrapper now st key (.error e)).state.redis = st.redis ∧
    (cacheWrapper now (cacheWrapper now st key (.error e)).state key
      f2).loaderCalled = true := by
  rw [cacheWrapper_loaderCalled] at hcall
  have h1 := cacheWrapper_of_reachesLoader now st key (.error e) hcall
  refine ⟨?_, ?_, ?_, ?_⟩
  · rw [h1, cacheWrapperMiss_result]; rfl
  · intro k2
    rw [h1, cacheWrapperMiss_error_state]
    exact lruLookupPure_lruGet now st.memoryCache key k2
  · rw [h1, cacheWrapperMiss_error_state]
  · rw [cacheWrapper_loaderCalled, h1, cacheWrapperMiss_error_state]
    unfold reachesLoader at hcall ⊢
    rw [Bool.and_eq_true] at hcall ⊢
    obtain ⟨ha, hb⟩ := hcall
    constructor
    · rw [truthyLocal_lruGet]
      exact ha
    · exact hb

/-- Witness for C5 at a concrete state. -/
theorem c5_witness :
    (cacheWrapper 0 { memoryCache := memoryCache, redis := none } "k"
        (.error "boom")).result = .error (.loader "boom") ∧
    (cacheWrapper 0
        (cacheWrapper 0 { memoryCache := memoryCache, redis := none } "k"
          (.error "boom")).state "k" (.error "again")).loaderCalled = true :=
  ⟨(c5_loader_failure 0 { memoryCache := memoryCache, redis := none } "k" "boom"
      (.error "again") rfl).1,
   (c5_loader_failure 0 { memoryCache := memoryCache, redis := none } "k" "boom"
      (.error "again") rfl).2.2.2⟩

/-- C6 counterexample: seed only the shared tier with the serialized
falsy value `"0"` for key `k` (local tier empty).  The first call does
return it labeled `SHARED`, but the immediately subsequent call is
served from Redis again (label `SHARED`), not from memory: the promoted
falsy value fails the memory cache's truthiness check. -/
theorem c6_counterexample :
    (cacheWrapper 0
        { memoryCache := memoryCache,
          redis := some { store := [("k", "0", 1800)], getFails := false, setFails := false } }
        "k" (.error "loader must not run")).header = some .hitRedis ∧
    (cacheWrapper 0
        { memoryCache := memoryCache,
          redis := some { store := [("k", "0", 1800)], getFails := false, setFails := false } }
        "k" (.error "loader must not run")).loaderCalled = false ∧
    (cacheWrapper 0
        (cacheWrapper 0
          { memoryCache := memoryCache,
            redis := some { store := [("k", "0", 1800)], getFails := false, setFails := false } }
          "k" (.error "loader must not run")).state
        "k" (.error "loader must not run")).header = some .hitRedis ∧
    (cacheWrapper 0
        (cacheWrapper 0
          { memoryCache := memoryCache,
            redis := some { store := [("k", "0", 1800)], getFails := false, setFails := false } }
          "k" (.error "loader must not run")).state
        "k" (.error "loader must not run")).header ≠ some .hitMemory :=
  ⟨rfl, rfl, rfl, by decide⟩

/-- C6 (amended): tier promotion holds provided the seeded shared-tier
string is non-empty and deserializes to a truthy value: for a key
absent from the local tier with Redis reachable and holding such a
string, the first call returns the parsed value labeled `SHARED`
without invoking the loader, and an immediately subsequent call (same
instant, positive capacity and TTL) returns it labeled `MEMORY`,
again without invoking the loader. -/
theorem c6_amended (now : Nat) (st : CacheState) (key : String)
    (f1 f2 : Except String JVal) (r : Redis) (s : String) (v : JVal)
    (habs : st.memoryCache.entries.find? (fun e => e.1 = key) = none)
    (hr : st.redis = some r) (hg : r.getFails = false)
    (hf : redisFind r key = some s) (hs : s ≠ "") (hp : jsonParse s = .ok v)
    (htr : jsTruthy v = true)
    (hmax : 0 < st.memoryCache.max) (httl : 0 < st.memoryCache.ttl) :
    (cacheWrapper now st key f1).result = .ok v ∧
    (cacheWrapper now st key f1).header = some .hitRedis ∧
    (cacheWrapper now st key f1).loaderCalled = false ∧
    (cacheWrapper now (cacheWrapper now st key f1).state key f2).result = .ok v ∧
    (cacheWrapper now (cacheWrapper now st key f1).state key f2).header =
      some .hitMemory ∧
    (cacheWrapper now (cacheWrapper now st key f1).state key f2).loaderCalled =
      false := by
  have hloc : truthyLocal now st.memoryCache key = false := by
    unfold truthyLocal lruLookupPure
    rw [habs]
  have h1 := cacheWrapper_redis_hit now st key f1 r s v hloc hr hg hf hs hp
  have hlook : lruLookupPure now (cacheWrapper now st key f1).state.memoryCache key =
      some v := by
    rw [h1]
    apply lruLookupPure_lruSet_self
    · rw [lruGet_snd_max]; exact hmax
    · rw [lruGet_snd_ttl]; exact httl
  have h2 := cacheWrapper_memory_hit now (cacheWrapper now st key f1).state key f2 v
    hlook htr
  exact ⟨by rw [h1], by rw [h1], by rw [h1], by rw [h2], by rw [h2], by rw [h2]⟩

/-- Witness for C6 (amended) at a concrete seeded state. -/
theorem c6_witness :
    (cacheWrapper 0
        { memoryCache := memoryCache,
          redis := some { store := [("k", "7", 1800)], getFails := false, setFails := false } }
        "k" (.error "unused")).header = some .hitRedis ∧
    (cacheWrapper 0
        (cacheWrapper 0
          { memoryCache := memoryCache,
            redis := some { store := [("k", "7", 1800)], getFails := false, setFails := false } }
          "k" (.error "unused")).state
        "k" (.error "unused")).header = some .hitMemory :=
  ⟨(c6_amended 0
      { memoryCache := memoryCache,
        redis := some { store := [("k", "7", 1800)], getFails := false, setFails := false } }
      "k" (.error "unused") (.error "unused")
      { store := [("k", "7", 1800)], getFails := false, setFails := false }
      "7" (JVal.jnum 7) rfl rfl rfl rfl (by decide) rfl rfl (by decide) (by decide)).2.1,
   (c6_amended 0
      { memoryCache := memoryCache,
        redis := some { store := [("k", "7", 1800)], getFails := false, setFails := false } }
      "k" (.error "unused") (.error "unused")
      { store := [("k", "7", 1800)], getFails := false, setFails := false }
      "7" (JVal.jnum 7) rfl rfl rfl rfl (by decide) rfl rfl (by decide) (by decide)).2.2.2.2.1⟩

/-- C7: the Redis write after a successful load is fire-and-forget.  The
per-request outcome (value, `MISS` label, attempted operations) is the
same whatever the handle's `setFails` flag — the quantified `r` carries
an arbitrary flag — and when the write fails the store is simply left
unchanged; no error reaches the caller. -/
theorem c7_fire_and_forget (now : Nat) (st : CacheState) (key : String) (v : JVal)
    (r : Redis) (hr : st.redis = some r)
    (hreach : reachesLoader now st key = true) :
    (cacheWrapper now st key (.ok v)).result = .ok v ∧
    (cacheWrapper now st key (.ok v)).header = some .miss ∧
    (cacheWrapper now st key (.ok v)).sharedOps =
      [.sGet key, .sSet key (jsonStringify v)] ∧
    (r.setFails = true → (cacheWrapper now st key (.ok v)).state.redis = some r) := by
  have h1 := cacheWrapper_of_reachesLoader now st key (.ok v) hreach
  refine ⟨by rw [h1, cacheWrapperMiss_result]; rfl,
    by rw [h1, cacheWrapperMiss_header], ?_, ?_⟩
  · rw [h1]
    unfold cacheWrapperMiss
    simp [hr, redisOps]
  · intro hsf
    rw [h1, cacheWrapperMiss_ok_redis now
      { memoryCache := (lruGet now st.memoryCache key).2, redis := st.redis }
      key v (redisOps st.redis key) r hr]
    unfold redisSet
    rw [hsf]
    simp

/-- Witness for C7 at a concrete state whose Redis write fails. -/
theorem c7_witness :
    (cacheWrapper 0
        { memoryCache := memoryCache,
          redis := some { store := [], getFails := false, setFails := true } }
        "k" (.ok (.jnum 3))).result = .ok (.jnum 3) ∧
    (cacheWrapper 0
        { memoryCache := memoryCache,
          redis := some { store := [], getFails := false, setFails := true } }
        "k" (.ok (.jnum 3))).state.redis =
      some { store := [], getFails := false, setFails := true } :=
  ⟨(c7_fire_and_forget 0
      { memoryCache := memoryCache,
        redis := some { store := [], getFails := false, setFails := true } }
      "k" (.jnum 3) { store := [], getFails := false, setFails := true } rfl rfl).1,
   (c7_fire_and_forget 0
      { memoryCache := memoryCache,
        redis := some { store := [], getFails := false, setFails := true } }
      "k" (.jnum 3) { store := [], getFails := false, setFails := true } rfl
      rfl).2.2.2 rfl⟩

/-- C8: with no Redis handle configured, `cacheWrapper` attempts no
shared-tier operation and produces no shared-tier error: it is exactly
local lookup followed by the loader — a truthy local hit is returned
labeled `MEMORY`; otherwise the loader runs and its outcome (value or
propagated loader error) is returned labeled `MISS`. -/
theorem c8_no_redis (now : Nat) (st : CacheState) (key : String)
    (fetch : Except String JVal) (h : st.redis = none) :
    (cacheWrapper now st key fetch).sharedOps = [] ∧
    (cacheWrapper now st key fetch).state.redis = none ∧
    ((∃ v, lruLookupPure now st.memoryCache key = some v ∧ jsTruthy v = true ∧
        (cacheWrapper now st key fetch).result = .ok v ∧
        (cacheWrapper now st key fetch).header = some .hitMemory ∧
        (cacheWrapper now st key fetch).loaderCalled = false) ∨
      (truthyLocal now st.memoryCache key = false ∧
        (cacheWrapper now st key fetch).result = fetchResult fetch ∧
        (cacheWrapper now st key fetch).header = some .miss ∧
        (cacheWrapper now st key fetch).loaderCalled = true)) := by
  by_cases htl : truthyLocal now st.memoryCache key = true
  · unfold truthyLocal at htl
    cases hl : lruLookupPure now st.memoryCache key with
    | none => rw [hl] at htl; exact absurd htl (by simp)
    | some v =>
        rw [hl] at htl
        simp only at htl
        have h1 := cacheWrapper_memory_hit now st key fetch v hl htl
        refine ⟨by rw [h1], by rw [h1]; exact h, Or.inl ⟨v, rfl, htl, by rw [h1],
          by rw [h1], by rw [h1]⟩⟩
  · rw [Bool.not_eq_true] at htl
    have hreach : reachesLoader now st key = true := by
      unfold reachesLoader
      rw [htl, h]
      rfl
    have h1 := cacheWrapper_of_reachesLoader now st key fetch hreach
    have hops : (cacheWrapper now st key fetch).sharedOps = [] := by
      rw [h1]
      unfold cacheWrapperMiss
      cases fetch <;> simp [h, redisOps]
    have hred : (cacheWrapper now st key fetch).state.redis = none := by
      rw [h1]
      unfold cacheWrapperMiss
      cases fetch <;> simp [h, redisOps]
    exact ⟨hops, hred, Or.inr ⟨htl, by rw [h1, cacheWrapperMiss_result],
      by rw [h1, cacheWrapperMiss_header], by rw [h1, cacheWrapperMiss_loaderCalled]⟩⟩

/-- Witness for C8 at a concrete state with no Redis handle. -/
theorem c8_witness :
    (cacheWrapper 0 { memoryCache := memoryCache, redis := none } "k"
        (.ok (.jstr "v"))).sharedOps = [] ∧
    (cacheWrapper 0 { memoryCache := memoryCache, redis := none } "k"
        (.ok (.jstr "v"))).state.redis = none :=
  ⟨(c8_no_redis 0 { memoryCache := memoryCache, redis := none } "k"
      (.ok (.jstr "v")) rfl).1,
   (c8_no_redis 0 { memoryCache := memoryCache, redis := none } "k"
      (.ok (.jstr "v")) rfl).2.1⟩

/-- C9: local-tier TTL and LRU semantics.  (1) An entry written at
`insertT` is no longer returned once its TTL has elapsed at `readT`.
(2) The spec scenario at `maxEntries = 2`: inserting A, B, C evicts A
and keeps B and C; after reading B (which refreshes its recency),
inserting D evicts C and keeps B and D. -/
theorem c9_ttl_lru :
    (∀ (c : LRUCache) (k : String) (v : JVal) (insertT readT : Nat),
      c.ttl ≤ readT - insertT →
      lruLookupPure readT (lruSet insertT c k v) k = none) ∧
    (lruLookupPure 0
        (lruSet 0 (lruSet 0 (lruSet 0 { max := 2, ttl := 100, entries := [] }
          "A" (.jnum 1)) "B" (.jnum 2)) "C" (.jnum 3)) "A" = none ∧
      lruLookupPure 0
        (lruSet 0 (lruSet 0 (lruSet 0 { max := 2, ttl := 100, entries := [] }
          "A" (.jnum 1)) "B" (.jnum 2)) "C" (.jnum 3)) "B" = some (.jnum 2) ∧
      lruLookupPure 0
        (lruSet 0 (lruSet 0 (lruSet 0 { max := 2, ttl := 100, entries := [] }
          "A" (.jnum 1)) "B" (.jnum 2)) "C" (.jnum 3)) "C" = some (.jnum 3) ∧
      lruLookupPure 0
        (lruSet 0
          (lruGet 0
            (lruSet 0 (lruSet 0 (lruSet 0 { max := 2, ttl := 100, entries := [] }
              "A" (.jnum 1)) "B" (.jnum 2)) "C" (.jnum 3)) "B").2
          "D" (.jnum 4)) "B" = some (.jnum 2) ∧
      lruLookupPure 0
        (lruSet 0
          (lruGet 0
            (lruSet 0 (lruSet 0 (lruSet 0 { max := 2, ttl := 100, entries := [] }
              "A" (.jnum 1)) "B" (.jnum 2)) "C" (.jnum 3)) "B").2
          "D" (.jnum 4)) "C" = none ∧
      lruLookupPure 0
        (lruSet 0
          (lruGet 0
            (lruSet 0 (lruSet 0 (lruSet 0 { max := 2, ttl := 100, entries := [] }
              "A" (.jnum 1)) "B" (.jnum 2)) "C" (.jnum 3)) "B").2
          "D" (.jnum 4)) "D" = some (.jnum 4)) := by
  refine ⟨?_, rfl, rfl, rfl, rfl, rfl, rfl⟩
  intro c k v insertT readT h
  unfold lruSet lruLookupPure
  cases hm : c.max with
  | zero => simp
  | succ m =>
      simp only [List.take_succ_cons, List.find?_cons]
      have hfr : lruFresh readT insertT c.ttl = false := by
        unfold lruFresh
        simp only [decide_eq_false_iff_not, not_lt]
        omega
      simp [hfr]

/-- Witness for C9 at a concrete cache and elapsed time. -/
theorem c9_witness :
    lruLookupPure 100
      (lruSet 0 { max := 2, ttl := 100, entries := [] } "A" (.jnum 1)) "A" = none :=
  c9_ttl_lru.1 { max := 2, ttl := 100, entries := [] } "A" (.jnum 1) 0 100
    (by decide)

/-- C10 counterexample: a key cached with the falsy value `false` in the
local tier and its serialized form `"false"` in the shared tier.  The
local check does treat it as a miss, but the shared-tier check tests
the raw string — `"false"` is a non-empty string — so the call returns
the falsy value labeled `SHARED`, does not invoke the loader, and is
not labeled `MISS`, contradicting the claim for the shared-tier
check. -/
theorem c10_counterexample :
    lruLookupPure 0
      { max := 1000, ttl := CACHE_TTL * 1000, entries := [("k", JVal.jbool false, 0)] }
      "k" = some (JVal.jbool false) ∧
    redisFind { store := [("k", "false", 1800)], getFails := false, setFails := false }
      "k" = some "false" ∧
    (cacheWrapper 0
        { memoryCache :=
            { max := 1000, ttl := CACHE_TTL * 1000, entries := [("k", JVal.jbool false, 0)] },
          redis := some { store := [("k", "false", 1800)], getFails := false, setFails := false } }
        "k" (.ok (.jnum 9))).result = .ok (.jbool false) ∧
    (cacheWrapper 0
        { memoryCache :=
            { max := 1000, ttl := CACHE_TTL * 1000, entries := [("k", JVal.jbool false, 0)] },
          redis := some { store := [("k", "false", 1800)], getFails := false, setFails := false } }
        "k" (.ok (.jnum 9))).loaderCalled = false ∧
    (cacheWrapper 0
        { memoryCache :=
            { max := 1000, ttl := CACHE_TTL * 1000, entries := [("k", JVal.jbool false, 0)] },
          redis := some { store := [("k", "false", 1800)], getFails := false, setFails := false } }
        "k" (.ok (.jnum 9))).header = some .hitRedis :=
  ⟨rfl, rfl, rfl, rfl, rfl⟩

/-- C10 (amended): the two checks treat falsy cached data differently.
(1) The local-tier check treats a present, unexpired falsy value as a
miss: with no shared tier configured the loader runs and the response
is labeled `MISS` even though the key is cached locally.  (2) The
shared-tier check tests the raw stored string, so a falsy value whose
serialized form is non-empty (`"null"`, `"false"`, `"0"`, `"\"\""`) is
a shared hit: it is returned labeled `SHARED` without invoking the
loader.  (3) Only an empty stored string makes the shared-tier check
fall through to the loader with label `MISS`. -/
theorem c10_amended (now : Nat) (st : CacheState) (key : String)
    (fetch : Except String JVal) :
    (∀ v, lruLookupPure now st.memoryCache key = some v → jsTruthy v = false →
      st.redis = none →
      (cacheWrapper now st key fetch).loaderCalled = true ∧
      (cacheWrapper now st key fetch).header = some .miss) ∧
    (∀ r s v, truthyLocal now st.memoryCache key = false → st.redis = some r →
      r.getFails = false → redisFind r key = some s → s ≠ "" →
      jsonParse s = .ok v →
      (cacheWrapper now st key fetch).result = .ok v ∧
      (cacheWrapper now st key fetch).header = some .hitRedis ∧
      (cacheWrapper now st key fetch).loaderCalled = false) ∧
    (∀ r, truthyLocal now st.memoryCache key = false → st.redis = some r →
      r.getFails = false → redisFind r key = some "" →
      (cacheWrapper now st key fetch).loaderCalled = true ∧
      (cacheWrapper now st key fetch).header = some .miss) := by
  refine ⟨?_, ?_, ?_⟩
  · intro v hl ht hred
    have htl : truthyLocal now st.memoryCache key = false := by
      unfold truthyLocal
      rw [hl]
      exact ht
    have hreach : reachesLoader now st key = true := by
      unfold reachesLoader
      rw [htl, hred]
      rfl
    have h1 := cacheWrapper_of_reachesLoader now st key fetch hreach
    exact ⟨by rw [h1, cacheWrapperMiss_loaderCalled],
      by rw [h1, cacheWrapperMiss_header]⟩
  · intro r s v htl hr hg hf hs hp
    have h1 := cacheWrapper_redis_hit now st key fetch r s v htl hr hg hf hs hp
    exact ⟨by rw [h1], by rw [h1], by rw [h1]⟩
  · intro r htl hr hg hf
    have hreach : reachesLoader now st key = true := by
      unfold reachesLoader
      rw [htl, hr]
      simp [hg, hf]
    have h1 := cacheWrapper_of_reachesLoader now st key fetch hreach
    exact ⟨by rw [h1, cacheWrapperMiss_loaderCalled],
      by rw [h1, cacheWrapperMiss_header]⟩

/-- Witness for C10 (amended): each of the three behaviors at a concrete
state. -/
theorem c10_witness :
    (cacheWrapper 0
        { memoryCache :=
            { max := 1000, ttl := CACHE_TTL * 1000, entries := [("k", JVal.jnum 0, 0)] },
          redis := none } "k" (.ok (.jnum 8))).header = some .miss ∧
    (cacheWrapper 0
        { memoryCache := memoryCache,
          redis := some { store := [("k", "null", 1800)], getFails := false, setFails := false } }
        "k" (.ok (.jnum 8))).result = .ok .jnull ∧
    (cacheWrapper 0
        { memoryCache := memoryCache,
          redis := some { store := [("k", "", 1800)], getFails := false, setFails := false } }
        "k" (.ok (.jnum 8))).loaderCalled = true :=
  ⟨((c10_amended 0
      { memoryCache :=
          { max := 1000, ttl := CACHE_TTL * 1000, entries := [("k", JVal.jnum 0, 0)] },
        redis := none } "k" (.ok (.jnum 8))).1 (JVal.jnum 0) rfl rfl rfl).2,
   ((c10_amended 0
      { memoryCache := memoryCache,
        redis := some { store := [("k", "null", 1800)], getFails := false, setFails := false } }
      "k" (.ok (.jnum 8))).2.1
      { store := [("k", "null", 1800)], getFails := false, setFails := false }
      "null" .jnull rfl rfl rfl rfl (by decide) rfl).1,
   ((c10_amended 0
      { memoryCache := memoryCache,
        redis := some { store := [("k", "", 1800)], getFails := false, setFails := false } }
      "k" (.ok (.jnum 8))).2.2
      { store := [("k", "", 1800)], getFails := false, setFails := false }
      rfl rfl rfl rfl).1⟩

end ConsumetTmdb
